import Mathlib

/-!
Shallow embedding of the authentication/authorization core of the
feedback-system repository: `src/utils/passwordHash.js`, `src/utils/jwt.js`,
`src/middleware/auth.js`, `src/middleware/errorHandler.js`,
`src/features/user/userService.js` and `src/features/user/userRepository.js`.

External collaborators (the `bcryptjs` and `jsonwebtoken` npm libraries and
the MongoDB-backed store) are modelled explicitly: hashing is a function
parameter, the JWT wire format is an inductive value carrying the signed
payload and signing key, and the account store is a list of account records.
-/

deriving instance DecidableEq for Except

namespace FeedbackSystem

/-- JS `s.toLowerCase()` (ASCII range, as used on email addresses). -/
def jsToLower (s : String) : String := ⟨s.data.map Char.toLower⟩

/-! ## Error classes (`src/middleware/errorHandler.js`)

`AppError` carries `message`, `statusCode` and `errorCode`; `AuthError` and
`ForbiddenError` are the two constructors used by the auth middleware. -/

structure AppError where
  message : String
  statusCode : Nat
  errorCode : String
deriving Repr, DecidableEq

def AuthError (message : String := "Authentication failed") : AppError :=
  { message := message, statusCode := 401, errorCode := "AUTH_ERROR" }

def ForbiddenError (message : String := "Access denied") : AppError :=
  { message := message, statusCode := 403, errorCode := "FORBIDDEN" }

def ConflictError (message : String := "Resource already exists") : AppError :=
  { message := message, statusCode := 409, errorCode := "CONFLICT" }

def NotFoundError (resource : String := "Resource") : AppError :=
  { message := resource ++ " not found", statusCode := 404, errorCode := "NOT_FOUND" }

/-! ## Account records (`src/features/user/userModel.js`)

A user document: `_id`, `email`, `password` (the secret field), `role`,
`isVerified`.  Timestamps are irrelevant to every claim and omitted. -/

structure Account where
  _id : String
  email : String
  password : String
  role : String
  isVerified : Bool
deriving Repr, DecidableEq

/-! ## Credential hasher (`src/utils/passwordHash.js`)

`isBcryptHash` is the source's regex test `/^\$2[aby]\$\d\x7b2\x7d\$/.test(str)`:
the string starts with `$2`, then one of `a`/`b`/`y`, `$`, two decimal
digits, `$`.  The regex is unanchored at the right, so only the prefix is
inspected. -/

def isBcryptHashL : List Char → Bool
  | '$' :: '2' :: c :: '$' :: d1 :: d2 :: '$' :: _ =>
    (c == 'a' || c == 'b' || c == 'y') && d1.isDigit && d2.isDigit
  | _ => false

def isBcryptHash (str : String) : Bool := isBcryptHashL str.data

/-- A model of `bcryptjs` hashing with cost 12 (`SALT_ROUNDS = 12`): the
output carries the fixed `$2b$12$` structural prefix.  The real library
salts randomly; no claim here depends on the salt, and the service-level
theorems are additionally parameterized over an arbitrary hash function. -/
def hashPassword (password : String) : String := "$2b$12$" ++ password

/-- Model of `bcrypt.compare`: accepts exactly the preimage of the hash. -/
def comparePassword (password hashed : String) : Bool := hashed == hashPassword password

/-! ## Token codec (`src/utils/jwt.js`)

The `jsonwebtoken` library is external.  Its wire format is modelled as an
inductive value: either a malformed string or a signed payload together with
the key that signed it.  `jwt.verify` throws `JsonWebTokenError` on
malformed input or a signature made with a different key, and
`TokenExpiredError` once the embedded `exp` (seconds since epoch) is not in
the future. -/

/-- The exact signed payload shape produced by `generateToken`:
`{ id, email, role }` plus the standard `exp` claim added by `jwt.sign`. -/
structure Claims where
  id : String
  email : String
  role : String
  exp : Nat
deriving Repr, DecidableEq

inductive TokenWire where
  | malformed : TokenWire
  | signed : Claims → String → TokenWire
deriving Repr, DecidableEq

inductive JwtError where
  | jsonWebTokenError : JwtError
  | tokenExpiredError : JwtError
deriving Repr, DecidableEq

/-- Model of `jwt.verify(token, key)` at clock time `now`:  throws
(`Except.error`) on malformed structure, wrong signing key, or an expiry
that is not strictly in the future; otherwise returns the claims. -/
def jwtLibVerify (key : String) (now : Nat) : TokenWire → Except JwtError Claims
  | .malformed => .error .jsonWebTokenError
  | .signed claims k =>
    if k ≠ key then .error .jsonWebTokenError
    else if claims.exp ≤ now then .error .tokenExpiredError
    else .ok claims

/-- Model of `jwt.sign(payload, key, \x7bexpiresIn\x7d)`:  signs
`\x7bid, email, role\x7d` with `exp := now + lifetime` seconds. -/
def jwtLibSign (key : String) (now lifetime : Nat)
    (id email role : String) : TokenWire :=
  .signed { id := id, email := email, role := role, exp := now + lifetime } key

/-- `generateToken(user)`: payload is `\x7b id: user._id, email, role \x7d`,
signed with the server key and the configured lifetime. -/
def generateToken (key : String) (now lifetime : Nat) (user : Account) : TokenWire :=
  jwtLibSign key now lifetime user._id user.email user.role

/-- `verifyToken(token)`: `try \x7b return jwt.verify(...) \x7d catch \x7b return null \x7d`.
`wire` is the decoding of a raw token string into the library's view of it. -/
def verifyToken (wire : String → TokenWire) (key : String) (now : Nat)
    (token : String) : Option Claims :=
  match jwtLibVerify key now (wire token) with
  | .ok claims => some claims
  | .error _ => none

/-- `getTokenExpirySeconds(expiresIn)` needs a model of JavaScript
`parseInt`: skip leading whitespace, optional sign, `0x`/`0X` hex prefix,
then the longest digit prefix; `none` models `NaN`. -/
def decDigit (c : Char) : Option Nat :=
  if c.isDigit then some (c.toNat - 48) else none

def hexDigit (c : Char) : Option Nat :=
  if c.isDigit then some (c.toNat - 48)
  else if 'a' ≤ c ∧ c ≤ 'f' then some (c.toNat - 87)
  else if 'A' ≤ c ∧ c ≤ 'F' then some (c.toNat - 55)
  else none

def parseIntGo (dig : Char → Option Nat) (base acc : Nat) : List Char → Nat
  | [] => acc
  | c :: rest =>
    match dig c with
    | none => acc
    | some d => parseIntGo dig base (base * acc + d) rest

def parseIntPrefixVal (dig : Char → Option Nat) (base : Nat) : List Char → Option Nat
  | [] => none
  | c :: rest => (dig c).map fun d => parseIntGo dig base d rest

def jsParseInt (s : String) : Option Int :=
  let cs := s.data.dropWhile Char.isWhitespace
  let signed : Int × List Char :=
    match cs with
    | '-' :: rest => (-1, rest)
    | '+' :: rest => (1, rest)
    | _ => (1, cs)
  let body : Option Nat :=
    match signed.2 with
    | '0' :: x :: rest =>
      if x = 'x' ∨ x = 'X' then parseIntPrefixVal hexDigit 16 rest
      else parseIntPrefixVal decDigit 10 ('0' :: x :: rest)
    | l => parseIntPrefixVal decDigit 10 l
  body.map fun n => signed.1 * (n : Int)

/-- JS `s.slice(-1)`: the last character as a string (empty for `""`). -/
def sliceLast (s : String) : String :=
  match s.data.getLast? with
  | none => ""
  | some c => ⟨[c]⟩

/-- JS `s.slice(0, -1)`: everything but the last character. -/
def sliceDropLast (s : String) : String := ⟨s.data.dropLast⟩

/-- `getTokenExpirySeconds(expiresIn)`: `unit = expiresIn.slice(-1)`,
`value = parseInt(expiresIn.slice(0, -1))`, result
`value * (multipliers[unit] || 1)`.  `none` models `NaN`. -/
def getTokenExpirySeconds (expiresIn : String) : Option Int :=
  let unit := sliceLast expiresIn
  let value := jsParseInt (sliceDropLast expiresIn)
  let mult : Int :=
    if unit = "s" then 1
    else if unit = "m" then 60
    else if unit = "h" then 60 * 60
    else if unit = "d" then 60 * 60 * 24
    else 1
  value.map fun v => v * mult

/-! ## Auth middleware (`src/middleware/auth.js`) -/

/-- JS `String.prototype.split` with a one-character separator: split at
every occurrence, keeping empty chunks (`"".split(" ") = [""]`,
`"a  b".split(" ") = ["a","","b"]`). -/
def splitChar (sep : Char) : List Char → List (List Char)
  | [] => [[]]
  | c :: rest =>
    match splitChar sep rest with
    | [] => [[]]
    | chunk :: chunks =>
      if c = sep then [] :: chunk :: chunks
      else (c :: chunk) :: chunks

/-- JS `s.split(" ")`. -/
def jsSplitOnSpace (s : String) : List String :=
  (splitChar ' ' s.data).map fun l => ⟨l⟩

/-- `extractToken(authHeader)`: `null` for a missing header; split on
single spaces (JS `split(" ")`); require exactly two parts with the first
equal to `"Bearer"`; then `verifyToken` on the second part.  A
present-but-empty header is falsy in JS and also returns `null`. -/
def extractToken (wire : String → TokenWire) (key : String) (now : Nat)
    (authHeader : Option String) : Option Claims :=
  match authHeader with
  | none => none
  | some h =>
    if h = "" then none
    else
      let parts := jsSplitOnSpace h
      if parts.length ≠ 2 ∨ parts.head? ≠ some "Bearer" then none
      else
        match parts.get? 1 with
        | none => none
        | some token => verifyToken wire key now token

/-- `select("-password")` on a fetched document: the secret is stripped. -/
def stripPassword (u : Account) : Account := { u with password := "" }

/-- The identity-resolution core of `requireAuth`: `extractToken`, then a
fresh `User.findById(decoded.id)` with the password stripped; `none`
whenever either step fails. -/
def resolve (wire : String → TokenWire) (key : String) (now : Nat)
    (findById : String → Option Account) (authHeader : Option String) :
    Option Account :=
  match extractToken wire key now authHeader with
  | none => none
  | some decoded =>
    match findById decoded.id with
    | none => none
    | some user => some (stripPassword user)

/-- A middleware decision: `none` means `next()` (allow). -/
def MiddlewareResult := Option AppError
deriving instance Repr, DecidableEq for MiddlewareResult

/-- `requireAuth` outcome, with the attached `req.user` and
`req.tokenPayload` on success. -/
inductive AuthOutcome where
  | authed : Account → Claims → AuthOutcome
  | denied : AppError → AuthOutcome
deriving Repr, DecidableEq

/-- `requireAuth`: `extractToken`; `null` → `AuthError("Invalid or expired
token")`; fresh lookup `User.findById(decoded.id).select("-password")`;
absent → `AuthError("User no longer exists")`; else attach user + payload. -/
def requireAuth (wire : String → TokenWire) (key : String) (now : Nat)
    (findById : String → Option Account) (authHeader : Option String) :
    AuthOutcome :=
  match extractToken wire key now authHeader with
  | none => .denied (AuthError "Invalid or expired token")
  | some decoded =>
    match findById decoded.id with
    | none => .denied (AuthError "User no longer exists")
    | some user => .authed (stripPassword user) decoded

/-- `requireAdmin`: no `req.user` → `AuthError("Authentication required")`;
role other than `"admin"` → `ForbiddenError("Admin access required")`. -/
def requireAdmin (user : Option Account) : MiddlewareResult :=
  match user with
  | none => some (AuthError "Authentication required")
  | some u =>
    if u.role ≠ "admin" then some (ForbiddenError "Admin access required")
    else none

/-- `requireOwnershipOrAdmin(paramField)`: no `req.user` →
`AuthError("Authentication required")`; otherwise allow when the user is an
admin or `req.user._id.toString()` equals `req.params[paramField]`
(`params` yields `none` for an absent route parameter, and in JS
`string !== undefined` holds, so an absent parameter denies non-admins). -/
def requireOwnershipOrAdmin (paramField : String)
    (params : String → Option String) (user : Option Account) :
    MiddlewareResult :=
  match user with
  | none => some (AuthError "Authentication required")
  | some u =>
    let requestedUserId := params paramField
    let currentUserId := u._id
    let isAdmin := u.role = "admin"
    if ¬isAdmin ∧ requestedUserId ≠ some currentUserId then
      some (ForbiddenError "You can only access your own resources")
    else none

/-! ## User repository (`src/features/user/userRepository.js`)

The MongoDB-backed store is modelled as a list of account documents.
`findOne`/`findById` return the first match; `findByIdAndUpdate` updates
every match in place. -/

def findByEmail (store : List Account) (email : String) : Option Account :=
  store.find? fun u => u.email == jsToLower email

def findById (store : List Account) (id : String) : Option Account :=
  (store.find? fun u => u._id == id).map stripPassword

def existsByEmail (store : List Account) (email : String) : Bool :=
  store.any fun u => u.email == jsToLower email

def updatePassword (store : List Account) (id hashedPassword : String) :
    List Account :=
  store.map fun u =>
    if u._id == id then { u with password := hashedPassword } else u

/-- The `data` object built by `UserService.updateUser`: each field is
present only if supplied. -/
structure UpdateData where
  email : Option String
  password : Option String
  role : Option String
  isVerified : Option Bool
deriving Repr, DecidableEq

def applyUpdate (d : UpdateData) (u : Account) : Account :=
  { u with
    email := d.email.getD u.email
    password := d.password.getD u.password
    role := d.role.getD u.role
    isVerified := d.isVerified.getD u.isVerified }

/-- `findByIdAndUpdate(id, data, \x7bnew: true\x7d).select("-password")`:
returns the updated document (password stripped) or `none`, together with
the updated store. -/
def repoUpdate (store : List Account) (id : String) (d : UpdateData) :
    Option Account × List Account :=
  match store.find? fun u => u._id == id with
  | none => (none, store)
  | some u =>
    (some (stripPassword (applyUpdate d u)),
     store.map fun v => if v._id == id then applyUpdate d v else v)

/-! ## User service (`src/features/user/userService.js`)

Operations are parameterized over the hash function (`bcryptjs` being
external and randomly salted) and the hash comparison.  Each stateful
operation returns its result together with the post-state of the store. -/

/-- JS `v || d` for strings: `undefined`, `null` and `""` are falsy. -/
def jsOrString (v : Option String) (d : String) : String :=
  match v with
  | none => d
  | some s => if s = "" then d else s

structure CreateData where
  email : String
  password : String
  role : Option String
  isVerified : Option Bool
deriving Repr, DecidableEq

/-- Sanitized account view (`user.toObject()` minus `password`, or the
login response's `user` object). -/
structure UserView where
  id : String
  email : String
  role : String
  isVerified : Bool
deriving Repr, DecidableEq

def toUserView (u : Account) : UserView :=
  { id := u._id, email := u.email, role := u.role, isVerified := u.isVerified }

/-- `UserService.createUser`: conflict if the email exists, else hash the
password and create `\x7bemail, password: hashed, role: role || "user",
isVerified: isVerified || false\x7d`.  `newId` is the id the store assigns
to the created document. -/
def createUser (hash : String → String) (store : List Account)
    (newId : String) (userData : CreateData) :
    Except AppError UserView × List Account :=
  if existsByEmail store userData.email then
    (.error (ConflictError "User with this email already exists"), store)
  else
    let hashedPassword := hash userData.password
    let user : Account :=
      { _id := newId
        email := userData.email
        password := hashedPassword
        role := jsOrString userData.role "user"
        isVerified := userData.isVerified.getD false }
    (.ok (toUserView user), store ++ [user])

/-- `UserService.updateUser`: hash any supplied replacement password, then
`repository.update`; `NotFoundError` when the id is absent. -/
def updateUser (hash : String → String) (store : List Account)
    (id : String) (updateData : UpdateData) :
    Except AppError Account × List Account :=
  let data : UpdateData := { updateData with password := updateData.password.map hash }
  match repoUpdate store id data with
  | (none, store') => (.error (NotFoundError "User"), store')
  | (some user, store') => (.ok user, store')

structure LoginResult where
  message : String
  token : TokenWire
  user : UserView
deriving Repr, DecidableEq

/-- `UserService.login`: find by email (`findByEmail` lowercases); absent →
`AuthError("Invalid email or password")`.  If the stored secret is a bcrypt
hash, compare with bcrypt; otherwise compare as plaintext and, only on a
match, lazily migrate the stored secret to `hash(password)`.  A final
mismatch → the same `AuthError`; success issues a token and a sanitized
view. -/
def login (hash : String → String) (compare : String → String → Bool)
    (key : String) (now lifetime : Nat) (store : List Account)
    (email password : String) :
    Except AppError LoginResult × List Account :=
  match findByEmail store email with
  | none => (.error (AuthError "Invalid email or password"), store)
  | some user =>
    let matched : Bool × List Account :=
      if isBcryptHash user.password then
        (compare password user.password, store)
      else
        let m := user.password == password
        (m, if m then updatePassword store user._id (hash password) else store)
    if matched.1 then
      (.ok { message := "Login successful"
             token := generateToken key now lifetime user
             user := toUserView user }, matched.2)
    else
      (.error (AuthError "Invalid email or password"), matched.2)

/-! ## Helper lemmas -/

theorem data_eq_singleton {t : String} {c : Char} (h : t.data = [c]) : t = ⟨[c]⟩ := by
  cases t with
  | mk d => exact congrArg String.mk h

theorem sliceLast_append_char (s t : String) (c : Char) (h : t.data = [c]) :
    sliceLast (s ++ t) = t := by
  rw [data_eq_singleton h]
  unfold sliceLast
  rw [String.data_append]
  simp

theorem sliceDropLast_append_char (s t : String) (c : Char) (h : t.data = [c]) :
    sliceDropLast (s ++ t) = s := by
  rw [data_eq_singleton h]
  unfold sliceDropLast
  rw [String.data_append]
  simp

theorem getTokenExpirySeconds_append_unit (s t : String) (c : Char) (h : t.data = [c]) :
    getTokenExpirySeconds (s ++ t) =
      (jsParseInt s).map fun v =>
        v * (if t = "s" then 1 else if t = "m" then 60 else if t = "h" then 60 * 60
             else if t = "d" then 60 * 60 * 24 else 1) := by
  unfold getTokenExpirySeconds
  rw [sliceLast_append_char s t c h, sliceDropLast_append_char s t c h]

theorem isBcryptHash_hashPassword (p : String) : isBcryptHash (hashPassword p) = true := by
  simp [isBcryptHash, hashPassword, String.data_append, isBcryptHashL]

/-! ## Claim theorems -/

/-- C3 counterexample: the claim says an expiry string with no recognized
unit suffix is treated as a raw number of seconds, so `"604800"` would
parse to `604800`; the code strips the last character before `parseInt`,
so `getTokenExpirySeconds "604800"` is in fact `60480`. -/
theorem C3_counterexample :
    getTokenExpirySeconds "604800" = some 60480 ∧
      getTokenExpirySeconds "604800" ≠ some 604800 := by
  constructor
  · decide
  · decide

/-- C3 (amended): for a numeric part followed by a recognized unit suffix,
the parsed duration is the integer value of the numeric part times the
unit multiplier (`s`=1, `m`=60, `h`=3600, `d`=86400); for a string whose
last character is not a recognized unit, the multiplier defaults to 1 but
the last character is still stripped before `parseInt`, so the result is
the integer parse of the string without its final character — in
particular `"604800"` parses to `60480` seconds, not `604800`. -/
theorem C3_expiry_parse :
    (∀ s : String, getTokenExpirySeconds (s ++ "s") = jsParseInt s) ∧
    (∀ s : String, getTokenExpirySeconds (s ++ "m") = (jsParseInt s).map (· * 60)) ∧
    (∀ s : String, getTokenExpirySeconds (s ++ "h") = (jsParseInt s).map (· * 3600)) ∧
    (∀ s : String, getTokenExpirySeconds (s ++ "d") = (jsParseInt s).map (· * 86400)) ∧
    (∀ s : String, sliceLast s ∉ (["s", "m", "h", "d"] : List String) →
      getTokenExpirySeconds s = jsParseInt (sliceDropLast s)) ∧
    getTokenExpirySeconds "604800" = some 60480 ∧
    getTokenExpirySeconds "7d" = some 604800 := by
  refine ⟨fun s => ?_, fun s => ?_, fun s => ?_, fun s => ?_, fun s h => ?_,
    by decide, by decide⟩
  · rw [getTokenExpirySeconds_append_unit s "s" 's' rfl]
    simp
  · rw [getTokenExpirySeconds_append_unit s "m" 'm' rfl]
    have e1 : ("m" : String) ≠ "s" := by decide
    simp [e1]
  · rw [getTokenExpirySeconds_append_unit s "h" 'h' rfl]
    have e1 : ("h" : String) ≠ "s" := by decide
    have e2 : ("h" : String) ≠ "m" := by decide
    have e3 : (60 * 60 : Int) = 3600 := by norm_num
    simp [e1, e2, e3]
  · rw [getTokenExpirySeconds_append_unit s "d" 'd' rfl]
    have e1 : ("d" : String) ≠ "s" := by decide
    have e2 : ("d" : String) ≠ "m" := by decide
    have e3 : ("d" : String) ≠ "h" := by decide
    have e4 : (60 * 60 * 24 : Int) = 86400 := by norm_num
    simp [e1, e2, e3, e4]
  · simp only [List.mem_cons, List.not_mem_nil, or_false, not_or] at h
    obtain ⟨h1, h2, h3, h4⟩ := h
    unfold getTokenExpirySeconds
    simp [h1, h2, h3, h4]

/-- Witness for C3_expiry_parse: `"999x"` ends in an unrecognized unit and
parses to `parseInt("999")`. -/
theorem C3_expiry_parse_witness :
    getTokenExpirySeconds "999x" = jsParseInt (sliceDropLast "999x") :=
  C3_expiry_parse.2.2.2.2.1 "999x" (by decide)

/-- C4: with no identity attached, both `requireAdmin` and (for every
route-parameter configuration) `requireOwnershipOrAdmin` deny with
`AuthError("Authentication required")` — a 401 `AUTH_ERROR` denial, while
`ForbiddenError` denials carry status 403. -/
theorem C4_no_identity_unauthenticated :
    requireAdmin none = some (AuthError "Authentication required") ∧
    (∀ (paramField : String) (params : String → Option String),
      requireOwnershipOrAdmin paramField params none =
        some (AuthError "Authentication required")) ∧
    (AuthError "Authentication required").statusCode = 401 ∧
    (AuthError "Authentication required").errorCode = "AUTH_ERROR" ∧
    (∀ m, (ForbiddenError m).statusCode = 403) :=
  ⟨rfl, fun _ _ => rfl, rfl, rfl, fun _ => rfl⟩

/-- C5: `requireOwnershipOrAdmin` allows an attached identity exactly when
its role is `"admin"` or the route parameter equals the identity's id;
every other outcome is the 403 forbidden denial.  Concretely,
`\x7bid:"u1", role:"user"\x7d` against owner `"u1"` is allowed and
`\x7bid:"u2", role:"user"\x7d` against owner `"u1"` is denied forbidden. -/
theorem C5_require_owner_or_admin :
    (∀ (paramField : String) (params : String → Option String) (u : Account),
      (requireOwnershipOrAdmin paramField params (some u) = none ↔
        u.role = "admin" ∨ params paramField = some u._id) ∧
      (¬(u.role = "admin" ∨ params paramField = some u._id) →
        requireOwnershipOrAdmin paramField params (some u) =
          some (ForbiddenError "You can only access your own resources"))) ∧
    requireOwnershipOrAdmin "userId" (fun _ => some "u1")
        (some { _id := "u1", email := "u1@x.com", password := "pw", role := "user",
                isVerified := false }) = none ∧
    requireOwnershipOrAdmin "userId" (fun _ => some "u1")
        (some { _id := "u2", email := "u2@x.com", password := "pw", role := "user",
                isVerified := false }) =
      some (ForbiddenError "You can only access your own resources") := by
  refine ⟨fun pf ps u => ?_, by decide, by decide⟩
  unfold requireOwnershipOrAdmin
  by_cases hA : u.role = "admin"
  · simp [hA]
  · by_cases hO : ps pf = some u._id
    · simp [hA, hO]
    · simp [hA, hO]

/-- Witness for C5_require_owner_or_admin: a non-admin identity with an id
different from the route parameter is denied forbidden. -/
theorem C5_require_owner_or_admin_witness :
    requireOwnershipOrAdmin "userId" (fun _ => some "o1")
        (some { _id := "u3", email := "u3@x.com", password := "pw", role := "user",
                isVerified := false }) =
      some (ForbiddenError "You can only access your own resources") :=
  (C5_require_owner_or_admin.1 "userId" (fun _ => some "o1")
    { _id := "u3", email := "u3@x.com", password := "pw", role := "user",
      isVerified := false }).2 (by decide)

/-- C9: `verifyToken` converts every library exception to `null`: a
malformed token, a token signed with a different key, and an expired token
all yield `none`, and any thrown `JwtError` whatsoever yields `none`. -/
theorem C9_verifyToken_never_throws :
    ∀ (wire : String → TokenWire) (key : String) (now : Nat) (token : String),
      (wire token = .malformed → verifyToken wire key now token = none) ∧
      (∀ claims k, wire token = .signed claims k → k ≠ key →
        verifyToken wire key now token = none) ∧
      (∀ claims, wire token = .signed claims key → claims.exp ≤ now →
        verifyToken wire key now token = none) ∧
      (∀ e, jwtLibVerify key now (wire token) = .error e →
        verifyToken wire key now token = none) := by
  intro wire key now token
  refine ⟨fun h => ?_, fun claims k h hk => ?_, fun claims h he => ?_, fun e h => ?_⟩
  · unfold verifyToken
    rw [h]
    rfl
  · unfold verifyToken jwtLibVerify
    rw [h]
    simp [hk]
  · unfold verifyToken jwtLibVerify
    rw [h]
    simp [he]
  · unfold verifyToken
    rw [h]

/-- Witness for C9_verifyToken_never_throws: a malformed token verifies to
`none`. -/
theorem C9_verifyToken_never_throws_witness :
    verifyToken (fun _ => TokenWire.malformed) "k" 0 "t" = none :=
  (C9_verifyToken_never_throws (fun _ => TokenWire.malformed) "k" 0 "t").1 rfl

/-- C7: a token issued for an account by `generateToken` and verified
immediately with the same key yields exactly the claims
`\x7b id := account._id, email, role, exp := now + lifetime \x7d` — the
wire payload carries precisely the `id`/`email`/`role`/`exp` fields. -/
theorem C7_issue_then_verify :
    ∀ (wire : String → TokenWire) (key tok : String) (now lifetime : Nat) (u : Account),
      0 < lifetime →
      wire tok = generateToken key now lifetime u →
      verifyToken wire key now tok =
        some { id := u._id, email := u.email, role := u.role, exp := now + lifetime } := by
  intro wire key tok now lifetime u hl hw
  unfold verifyToken
  rw [hw]
  unfold generateToken jwtLibSign jwtLibVerify
  have h1 : ¬(key ≠ key) := fun h => h rfl
  have h2 : ¬(now + lifetime ≤ now) := by omega
  simp [h1, h2]

/-- Witness for C7_issue_then_verify at a concrete account and 7-day
lifetime. -/
theorem C7_issue_then_verify_witness :
    verifyToken
      (fun _ => generateToken "k" 100 604800
        { _id := "u1", email := "a@b.com", password := "pw", role := "user",
          isVerified := false })
      "k" 100 "tok" =
      some { id := "u1", email := "a@b.com", role := "user", exp := 100 + 604800 } :=
  C7_issue_then_verify _ "k" "tok" 100 604800
    { _id := "u1", email := "a@b.com", password := "pw", role := "user",
      isVerified := false } (by decide) rfl

/-! ## Store and login helper lemmas -/

theorem findByEmail_updatePassword (email pw : String) (u : Account) :
    ∀ store : List Account, findByEmail store email = some u →
      findByEmail (updatePassword store u._id pw) email =
        some { u with password := pw } := by
  intro store
  induction store with
  | nil => intro hu; simp [findByEmail] at hu
  | cons a rest ih =>
    intro hu
    unfold findByEmail at hu
    unfold findByEmail updatePassword
    rw [List.map_cons]
    simp only [List.find?] at hu ⊢
    by_cases ha : (a.email == jsToLower email) = true
    · rw [ha] at hu
      injection hu with hau
      subst hau
      have h1 : (a._id == a._id) = true := by simp
      rw [if_pos h1]
      have h2 : (({ a with password := pw } : Account).email == jsToLower email) = true := ha
      rw [h2]
    · rw [Bool.not_eq_true] at ha
      rw [ha] at hu
      have hfa : (((if (a._id == u._id) = true then { a with password := pw } else a) :
          Account).email == jsToLower email) = false := by
        split
        · exact ha
        · exact ha
      rw [hfa]
      exact ih hu

theorem list_two_bearer {parts : List String}
    (hl : parts.length = 2) (hh : parts.head? = some "Bearer") :
    ∃ tok, parts = ["Bearer", tok] := by
  cases parts with
  | nil => simp at hl
  | cons a t =>
    cases t with
    | nil => simp at hl
    | cons b t2 =>
      cases t2 with
      | nil =>
        simp only [List.head?] at hh
        injection hh with hh
        exact ⟨b, by rw [hh]⟩
      | cons c t3 => simp at hl

theorem extractToken_eq_some_iff (wire : String → TokenWire) (key : String)
    (now : Nat) (h : Option String) (claims : Claims) :
    extractToken wire key now h = some claims ↔
      ∃ s tok, h = some s ∧ jsSplitOnSpace s = ["Bearer", tok] ∧
        verifyToken wire key now tok = some claims := by
  constructor
  · intro he
    cases h with
    | none => simp [extractToken] at he
    | some s =>
      simp only [extractToken] at he
      by_cases hs : s = ""
      · rw [if_pos hs] at he
        cases he
      · rw [if_neg hs] at he
        by_cases hc : (jsSplitOnSpace s).length ≠ 2 ∨ (jsSplitOnSpace s).head? ≠ some "Bearer"
        · rw [if_pos hc] at he
          cases he
        · rw [if_neg hc] at he
          push_neg at hc
          obtain ⟨tok, hp⟩ := list_two_bearer hc.1 hc.2
          rw [hp] at he
          exact ⟨s, tok, rfl, hp, he⟩
  · rintro ⟨s, tok, rfl, hsp, hv⟩
    simp only [extractToken]
    have hs : s ≠ "" := by
      intro h0
      rw [h0] at hsp
      injection hsp with h1 h2
      exact absurd h1 (by decide)
    rw [if_neg hs]
    have hcond : ¬((jsSplitOnSpace s).length ≠ 2 ∨ (jsSplitOnSpace s).head? ≠ some "Bearer") := by
      rw [hsp]
      simp
    rw [if_neg hcond, hsp]
    exact hv

theorem extractToken_eq_none_iff (wire : String → TokenWire) (key : String)
    (now : Nat) (h : Option String) :
    extractToken wire key now h = none ↔
      h = none ∨
      (∃ s, h = some s ∧
        ((jsSplitOnSpace s).length ≠ 2 ∨ (jsSplitOnSpace s).head? ≠ some "Bearer")) ∨
      (∃ s tok, h = some s ∧ jsSplitOnSpace s = ["Bearer", tok] ∧
        verifyToken wire key now tok = none) := by
  constructor
  · intro he
    cases h with
    | none => exact .inl rfl
    | some s =>
      right
      simp only [extractToken] at he
      by_cases hc : (jsSplitOnSpace s).length ≠ 2 ∨ (jsSplitOnSpace s).head? ≠ some "Bearer"
      · exact .inl ⟨s, rfl, hc⟩
      · right
        push_neg at hc
        obtain ⟨tok, hp⟩ := list_two_bearer hc.1 hc.2
        refine ⟨s, tok, rfl, hp, ?_⟩
        have hs : s ≠ "" := by
          intro h0
          rw [h0] at hp
          injection hp with h1 h2
          exact absurd h1 (by decide)
        rw [if_neg hs, hp] at he
        exact he
  · intro hd
    cases h with
    | none => rfl
    | some s =>
      simp only [extractToken]
      by_cases hs : s = ""
      · rw [if_pos hs]
      · rw [if_neg hs]
        rcases hd with h0 | ⟨s2, hs2, hc⟩ | ⟨s2, tok, hs2, hsp, hv⟩
        · cases h0
        · injection hs2 with hs2
          subst hs2
          rw [if_pos hc]
        · injection hs2 with hs2
          subst hs2
          have hcond : ¬((jsSplitOnSpace s).length ≠ 2 ∨
              (jsSplitOnSpace s).head? ≠ some "Bearer") := by
            rw [hsp]
            simp
          rw [if_neg hcond, hsp]
          exact hv

theorem resolve_none_cases (wire : String → TokenWire) (key : String) (now : Nat)
    (fid : String → Option Account) (h : Option String) :
    resolve wire key now fid h = none ↔
      extractToken wire key now h = none ∨
      ∃ claims, extractToken wire key now h = some claims ∧ fid claims.id = none := by
  unfold resolve
  cases hx : extractToken wire key now h with
  | none => simp
  | some claims =>
    cases hf : fid claims.id with
    | none => simp [hf]
    | some u => simp [hf]

/-- C1: identity resolution yields no identity exactly when the header is
absent, the header does not split on single spaces into exactly two parts
with first part `"Bearer"`, the token fails verification, or the verified
claims' subject id has no account in the store; and in particular a token
that verifies but whose subject account is gone resolves to `none` and the
request is denied, not authenticated. -/
theorem C1_resolve :
    ∀ (wire : String → TokenWire) (key : String) (now : Nat)
      (fid : String → Option Account) (h : Option String),
      (resolve wire key now fid h = none ↔
        h = none ∨
        (∃ s, h = some s ∧
          ((jsSplitOnSpace s).length ≠ 2 ∨ (jsSplitOnSpace s).head? ≠ some "Bearer")) ∨
        (∃ s tok, h = some s ∧ jsSplitOnSpace s = ["Bearer", tok] ∧
          verifyToken wire key now tok = none) ∨
        (∃ s tok claims, h = some s ∧ jsSplitOnSpace s = ["Bearer", tok] ∧
          verifyToken wire key now tok = some claims ∧ fid claims.id = none)) ∧
      (∀ claims, extractToken wire key now h = some claims → fid claims.id = none →
        resolve wire key now fid h = none ∧
        requireAuth wire key now fid h = .denied (AuthError "User no longer exists")) := by
  intro wire key now fid h
  constructor
  · rw [resolve_none_cases, extractToken_eq_none_iff]
    constructor
    · rintro ((h0 | hsplit | hver) | ⟨claims, hx, hf⟩)
      · exact .inl h0
      · exact .inr (.inl hsplit)
      · exact .inr (.inr (.inl hver))
      · obtain ⟨s, tok, hh, hsp, hv⟩ := (extractToken_eq_some_iff wire key now h claims).1 hx
        exact .inr (.inr (.inr ⟨s, tok, claims, hh, hsp, hv, hf⟩))
    · rintro (h0 | hsplit | hver | ⟨s, tok, claims, hh, hsp, hv, hf⟩)
      · exact .inl (.inl h0)
      · exact .inl (.inr (.inl hsplit))
      · exact .inl (.inr (.inr hver))
      · exact .inr ⟨claims,
          (extractToken_eq_some_iff wire key now h claims).2 ⟨s, tok, hh, hsp, hv⟩, hf⟩
  · intro claims hx hf
    constructor
    · rw [resolve_none_cases]
      exact .inr ⟨claims, hx, hf⟩
    · simp only [requireAuth, hx, hf]

/-- Witness for C1_resolve: a valid, unexpired token whose subject account
was deleted (empty lookup) resolves to `none` and is denied. -/
theorem C1_resolve_witness :
    resolve
        (fun _ => TokenWire.signed { id := "u1", email := "a@b.com", role := "user", exp := 10 } "k")
        "k" 5 (fun _ => none) (some "Bearer tok") = none ∧
      requireAuth
        (fun _ => TokenWire.signed { id := "u1", email := "a@b.com", role := "user", exp := 10 } "k")
        "k" 5 (fun _ => none) (some "Bearer tok") =
        .denied (AuthError "User no longer exists") :=
  (C1_resolve
      (fun _ => TokenWire.signed { id := "u1", email := "a@b.com", role := "user", exp := 10 } "k")
      "k" 5 (fun _ => none) (some "Bearer tok")).2
    { id := "u1", email := "a@b.com", role := "user", exp := 10 } (by decide) rfl

/-- C2: on every successful login, if the stored secret was legacy (not a
bcrypt hash) it equalled the supplied password and is replaced in storage
by its hash before the login returns; if it was already hashed the store
is untouched; either way the account's stored secret after a successful
login satisfies `isBcryptHash`. -/
theorem C2_lazy_migration :
    ∀ (hash : String → String) (compare : String → String → Bool)
      (key : String) (now lifetime : Nat) (store : List Account)
      (email password : String) (result : LoginResult) (store2 : List Account),
      (∀ p, isBcryptHash (hash p) = true) →
      login hash compare key now lifetime store email password = (.ok result, store2) →
      ∀ u, findByEmail store email = some u →
        (isBcryptHash u.password = false →
          u.password = password ∧
          findByEmail store2 email = some { u with password := hash password }) ∧
        (isBcryptHash u.password = true → store2 = store) ∧
        (∃ v, findByEmail store2 email = some v ∧ isBcryptHash v.password = true) := by
  intro hash compare key now lifetime store email password result store2 hhash hl u hu
  unfold login at hl
  rw [hu] at hl
  by_cases hB : isBcryptHash u.password = true
  · simp only [hB, if_true] at hl
    by_cases hc : compare password u.password = true
    · simp only [hc, if_true] at hl
      injection hl with h1 h2
      refine ⟨fun hBF => absurd (hB.symm.trans hBF) (by decide), fun _ => h2.symm, u, ?_, hB⟩
      rw [← h2]
      exact hu
    · simp only [Bool.not_eq_true] at hc
      simp only [hc, Bool.false_eq_true, if_false] at hl
      injection hl with h1 h2
      cases h1
  · simp only [Bool.not_eq_true] at hB
    simp only [hB, Bool.false_eq_true, if_false] at hl
    by_cases hm : (u.password == password) = true
    · simp only [hm, if_true] at hl
      injection hl with h1 h2
      have hpw : u.password = password := by simpa using hm
      refine ⟨fun _ => ⟨hpw, ?_⟩, fun hBT => absurd (hB.symm.trans hBT) (by decide),
        ⟨{ u with password := hash password }, ?_, hhash password⟩⟩
      · rw [← h2]
        exact findByEmail_updatePassword email (hash password) u store hu
      · rw [← h2]
        exact findByEmail_updatePassword email (hash password) u store hu
    · simp only [Bool.not_eq_true] at hm
      simp only [hm, Bool.false_eq_true, if_false] at hl
      injection hl with h1 h2
      cases h1

/-- Witness for C2_lazy_migration: a legacy account with plaintext secret
`"admin123"` logs in successfully and the stored secret afterwards is the
bcrypt-form hash. -/
theorem C2_lazy_migration_witness :
    (isBcryptHash ("admin123" : String) = false →
      ("admin123" : String) = "admin123" ∧
      findByEmail [{ _id := "u1", email := "a@b.com", password := "$2b$12$admin123",
                     role := "user", isVerified := false }] "a@b.com" =
        some { _id := "u1", email := "a@b.com", password := hashPassword "admin123",
               role := "user", isVerified := false }) ∧
    (isBcryptHash ("admin123" : String) = true →
      ([{ _id := "u1", email := "a@b.com", password := "$2b$12$admin123",
          role := "user", isVerified := false }] : List Account) =
        [{ _id := "u1", email := "a@b.com", password := "admin123",
           role := "user", isVerified := false }]) ∧
    (∃ v, findByEmail [{ _id := "u1", email := "a@b.com", password := "$2b$12$admin123",
                         role := "user", isVerified := false }] "a@b.com" = some v ∧
      isBcryptHash v.password = true) :=
  C2_lazy_migration hashPassword comparePassword "k" 100 604800
    [{ _id := "u1", email := "a@b.com", password := "admin123", role := "user",
       isVerified := false }]
    "a@b.com" "admin123"
    { message := "Login successful",
      token := TokenWire.signed { id := "u1", email := "a@b.com", role := "user",
                                  exp := 604900 } "k",
      user := { id := "u1", email := "a@b.com", role := "user", isVerified := false } }
    [{ _id := "u1", email := "a@b.com", password := "$2b$12$admin123", role := "user",
       isVerified := false }]
    isBcryptHash_hashPassword (by decide)
    { _id := "u1", email := "a@b.com", password := "admin123", role := "user",
      isVerified := false } (by decide)

/-- C6: a login attempt on a legacy (non-hashed) account with a wrong
password fails with the invalid-credentials error and performs no storage
write: the post-state store is the input store, the account still holds
the same plaintext secret, and it is still classified not-hashed. -/
theorem C6_legacy_wrong_password_frame :
    ∀ (hash : String → String) (compare : String → String → Bool)
      (key : String) (now lifetime : Nat) (store : List Account)
      (email password : String) (u : Account),
      findByEmail store email = some u →
      isBcryptHash u.password = false →
      (u.password == password) = false →
      login hash compare key now lifetime store email password =
        (.error (AuthError "Invalid email or password"), store) ∧
      findByEmail (login hash compare key now lifetime store email password).2 email =
        some u ∧
      isBcryptHash u.password = false := by
  intro hash compare key now lifetime store email password u hu hB hp
  have heq : login hash compare key now lifetime store email password =
      (.error (AuthError "Invalid email or password"), store) := by
    unfold login
    rw [hu]
    simp [hB, hp]
  refine ⟨heq, ?_, hB⟩
  rw [heq]
  exact hu

/-- Witness for C6_legacy_wrong_password_frame on a concrete legacy
account and wrong password. -/
theorem C6_legacy_wrong_password_frame_witness :
    login hashPassword comparePassword "k" 0 600
        [{ _id := "u1", email := "a@b.com", password := "admin123", role := "user",
           isVerified := false }] "a@b.com" "wrong" =
      (.error (AuthError "Invalid email or password"),
        [{ _id := "u1", email := "a@b.com", password := "admin123", role := "user",
           isVerified := false }]) ∧
    findByEmail
        (login hashPassword comparePassword "k" 0 600
          [{ _id := "u1", email := "a@b.com", password := "admin123", role := "user",
             isVerified := false }] "a@b.com" "wrong").2 "a@b.com" =
      some { _id := "u1", email := "a@b.com", password := "admin123", role := "user",
             isVerified := false } ∧
    isBcryptHash ("admin123" : String) = false :=
  C6_legacy_wrong_password_frame hashPassword comparePassword "k" 0 600
    [{ _id := "u1", email := "a@b.com", password := "admin123", role := "user",
       isVerified := false }]
    "a@b.com" "wrong"
    { _id := "u1", email := "a@b.com", password := "admin123", role := "user",
      isVerified := false } (by decide) (by decide) (by decide)

/-- C8: both login failure causes — no account under the normalized email,
and a password mismatch on an existing account (hashed or legacy) — return
the one identical error value `AuthError "Invalid email or password"`
(same message, same 401 kind), so the two causes are indistinguishable
from the response content. -/
theorem C8_login_failure_indistinguishable :
    ∀ (hash : String → String) (compare : String → String → Bool)
      (key : String) (now lifetime : Nat) (store : List Account)
      (email password : String),
      (findByEmail store email = none →
        login hash compare key now lifetime store email password =
          (.error (AuthError "Invalid email or password"), store)) ∧
      (∀ u, findByEmail store email = some u →
        (isBcryptHash u.password = true → compare password u.password = false) →
        (isBcryptHash u.password = false → (u.password == password) = false) →
        (login hash compare key now lifetime store email password).1 =
          .error (AuthError "Invalid email or password")) := by
  intro hash compare key now lifetime store email password
  constructor
  · intro h0
    unfold login
    rw [h0]
  · intro u hu hfailH hfailL
    unfold login
    rw [hu]
    by_cases hB : isBcryptHash u.password = true
    · simp [hB, hfailH hB]
    · simp only [Bool.not_eq_true] at hB
      simp [hB, hfailL hB]

/-- Witness for C8_login_failure_indistinguishable: a wrong password on an
existing legacy account yields the invalid-credentials error. -/
theorem C8_login_failure_indistinguishable_witness :
    (login hashPassword comparePassword "k" 0 600
        [{ _id := "u1", email := "a@b.com", password := "admin123", role := "user",
           isVerified := false }] "a@b.com" "wrong").1 =
      .error (AuthError "Invalid email or password") :=
  (C8_login_failure_indistinguishable hashPassword comparePassword "k" 0 600
      [{ _id := "u1", email := "a@b.com", password := "admin123", role := "user",
         isVerified := false }] "a@b.com" "wrong").2
    { _id := "u1", email := "a@b.com", password := "admin123", role := "user",
      isVerified := false } (by decide) (by decide) (by decide)

/-- C10: every secret the user service writes is hashed — `createUser`
hashes before creating, `updateUser` hashes a supplied replacement
password, and the login lazy migration writes a hash — so after any
service operation every stored secret either carries a password value that
already existed in the pre-state store or satisfies `isBcryptHash`. -/
theorem C10_service_writes_hashed :
    ∀ (hash : String → String) (compare : String → String → Bool)
      (key : String) (now lifetime : Nat) (store : List Account),
      (∀ p, isBcryptHash (hash p) = true) →
      (∀ (newId : String) (userData : CreateData),
        ∀ a ∈ (createUser hash store newId userData).2,
          (∃ b ∈ store, a.password = b.password) ∨ isBcryptHash a.password = true) ∧
      (∀ (id : String) (updateData : UpdateData),
        ∀ a ∈ (updateUser hash store id updateData).2,
          (∃ b ∈ store, a.password = b.password) ∨ isBcryptHash a.password = true) ∧
      (∀ (email password : String),
        ∀ a ∈ (login hash compare key now lifetime store email password).2,
          (∃ b ∈ store, a.password = b.password) ∨ isBcryptHash a.password = true) := by
  intro hash compare key now lifetime store hhash
  refine ⟨?_, ?_, ?_⟩
  · intro newId ud a ha
    unfold createUser at ha
    by_cases he : existsByEmail store ud.email = true
    · simp only [he, if_true] at ha
      exact .inl ⟨a, ha, rfl⟩
    · simp only [Bool.not_eq_true] at he
      simp only [he, Bool.false_eq_true, if_false] at ha
      rcases List.mem_append.1 ha with h | h
      · exact .inl ⟨a, h, rfl⟩
      · right
        simp only [List.mem_singleton] at h
        subst h
        exact hhash ud.password
  · intro id ud a ha
    unfold updateUser repoUpdate at ha
    cases hf : store.find? fun v => v._id == id with
    | none => rw [hf] at ha; exact .inl ⟨a, ha, rfl⟩
    | some v =>
      rw [hf] at ha
      obtain ⟨b, hb, hab⟩ := List.mem_map.1 ha
      by_cases hid : (b._id == id) = true
      · rw [if_pos hid] at hab
        subst hab
        cases hp : ud.password with
        | none =>
          left
          exact ⟨b, hb, by simp [applyUpdate, hp]⟩
        | some p =>
          right
          simp [applyUpdate, hp, hhash p]
      · rw [if_neg hid] at hab
        subst hab
        exact .inl ⟨b, hb, rfl⟩
  · intro email password a ha
    unfold login at ha
    cases hf : findByEmail store email with
    | none => rw [hf] at ha; exact .inl ⟨a, ha, rfl⟩
    | some u =>
      rw [hf] at ha
      by_cases hB : isBcryptHash u.password = true
      · simp only [hB, if_true] at ha
        by_cases hc : compare password u.password = true
        · simp only [hc, if_true] at ha
          exact .inl ⟨a, ha, rfl⟩
        · simp only [Bool.not_eq_true] at hc
          simp only [hc, Bool.false_eq_true, if_false] at ha
          exact .inl ⟨a, ha, rfl⟩
      · simp only [Bool.not_eq_true] at hB
        simp only [hB, Bool.false_eq_true, if_false] at ha
        by_cases hm : (u.password == password) = true
        · simp only [hm, if_true] at ha
          obtain ⟨b, hb, hab⟩ := List.mem_map.1 ha
          by_cases hid : (b._id == u._id) = true
          · rw [if_pos hid] at hab
            subst hab
            right
            exact hhash password
          · rw [if_neg hid] at hab
            subst hab
            exact .inl ⟨b, hb, rfl⟩
        · simp only [Bool.not_eq_true] at hm
          simp only [hm, Bool.false_eq_true, if_false] at ha
          exact .inl ⟨a, ha, rfl⟩

/-- Witness for C10_service_writes_hashed: the account created by
`createUser` on an empty store carries a bcrypt-form secret. -/
theorem C10_service_writes_hashed_witness :
    (∃ b ∈ ([] : List Account),
        ({ _id := "u1", email := "e@x.com", password := "$2b$12$pw", role := "user",
           isVerified := false } : Account).password = b.password) ∨
      isBcryptHash ({ _id := "u1", email := "e@x.com", password := "$2b$12$pw",
                      role := "user", isVerified := false } : Account).password = true :=
  (C10_service_writes_hashed hashPassword comparePassword "k" 0 1 []
      isBcryptHash_hashPassword).1 "u1"
    { email := "e@x.com", password := "pw", role := none, isVerified := none }
    { _id := "u1", email := "e@x.com", password := "$2b$12$pw", role := "user",
      isVerified := false } (by decide)

end FeedbackSystem
